import Mathlib

/-!
# MCUboot Mbed-OS port: the boot sequence of `boot/mbed/mcuboot_main.cpp`

A shallow embedding of `main` of `boot/mbed/mcuboot_main.cpp`.  The function is a
straight-line sequence of calls into the platform (the four weak hooks), the crypto
backend, the image-trust engine (`boot_go`), the logging macros, `exit` and
`mbed_start_application`.  A run of `main` is modelled by the list of the calls that
`main` itself makes, in program order, with their arguments.

* The preprocessor switches are the fields of `Config`.
* What the external functions return is the `Platform`.
* `Exec` is the control flow of C: a call either hands control back together with its
  result, or never does (`exit`, `mbed_start_application`, a `target_loop` that spins).
-/

namespace MCUboot

/-! ## Build configuration -/

/-- Modelled from the spec: the values of the macro `MCUBOOT_CRYPTO_BACKEND`, whose
definition (with those of `MBEDTLS` and `TINYCRYPT`) lives in the configuration headers.
The spec describes it as a sealed choice between Variant A (Mbed TLS) and Variant B
(TinyCrypt), exactly one of which is compiled in. -/
inductive CryptoBackend where
  | MBEDTLS
  | TINYCRYPT
deriving DecidableEq, Repr

/-- The preprocessor symbols that `main` is conditional on
(`MCUBOOT_BOOTLOADER_BUILD` is taken to be set: without it the file is empty). -/
structure Config where
  MCUBOOT_CRYPTO_BACKEND : CryptoBackend
  MBED_CONF_MBED_TRACE_ENABLE : Bool
  MCUBOOT_LOG_BOOTLOADER_ONLY : Bool
  MCUBOOT_APPLICATION_HOOKS : Bool
deriving DecidableEq, Repr

/-! ## Data -/

/-- Modelled from the spec: the part of `struct image_header` (declared in
`bootutil/image.h`) that `main` reads, the header size `ih_hdr_size`. -/
structure image_header where
  ih_hdr_size : Nat
deriving DecidableEq, Repr

/-- Modelled from the spec: the part of `struct boot_rsp` (declared in
`bootutil/bootutil.h`) that `main` reads: the header `br_hdr` points to and the
offset `br_image_off` of the image. -/
structure boot_rsp where
  br_hdr : image_header
  br_image_off : Nat
deriving DecidableEq, Repr

/-- An argument of a variadic logging macro. -/
inductive LogArg where
  | int (v : Int)
  | uint32 (v : Nat)
  | str (s : String)
deriving DecidableEq, Repr

/-- The calls `main` makes, with their arguments. -/
inductive Event where
  | target_debug_init
  | mbed_trace_init
  | mbed_trace_include_filters_set (filters : String)
  | tr_info (fmt : String) (args : List LogArg)
  | tr_error (fmt : String) (args : List LogArg)
  | BOOT_LOG_INF (fmt : String) (args : List LogArg)
  | BOOT_LOG_ERR (fmt : String) (args : List LogArg)
  | mbedtls_platform_setup
  | uECC_set_rng (rng_function : Nat)
  | target_init
  | target_loop
  | boot_go
  | target_led_off
  | exit (status : Int)
  | mbed_start_application (address : Nat)
deriving DecidableEq, Repr

/-- What a call to `target_loop` does: it comes back with a status, as the weak default
does, or it keeps the processor for good, as a platform override is expected to. -/
inductive Outcome where
  | returns (status : Int)
  | never
deriving DecidableEq, Repr

/-- The behaviour of everything `main` calls and whose result it can observe.  Every
function but `target_loop` is called at most once in a run, so one value each describes
an arbitrary deterministic platform; `target_loop` can be called twice and is indexed
by the number of its earlier calls in the run.  `boot_go` gives its status together
with the contents of `rsp` after the call (on failure: whatever the stack slot holds). -/
structure Platform where
  target_debug_init : Int
  mbedtls_platform_setup : Int
  target_init : Int
  target_loop : Nat → Outcome
  boot_go : Int × boot_rsp
  target_led_off : Int

/-! ## The weak defaults and the RNG stub of the source file -/

/-- Source: `int default_CSPRNG(uint8_t *dest, unsigned int size) { return 0; }`.
The result is the returned value together with the destination buffer after the call. -/
def default_CSPRNG (dest : List Nat) (_size : Nat) : Int × List Nat := (0, dest)

namespace Weak

/-- Source: `MBED_WEAK int target_init(void) { return 0; }`. -/
def target_init : Int := 0

/-- Source: `MBED_WEAK int target_loop(void) { return 0; }`. -/
def target_loop : Nat → Outcome := fun _ => Outcome.returns 0

/-- Source: `MBED_WEAK int target_debug_init(void) { return 0; }`. -/
def target_debug_init : Int := 0

/-- Source: `MBED_WEAK int target_led_off(void) { return 0; }`. -/
def target_led_off : Int := 0

end Weak

/-- A platform that overrides none of the four hooks. -/
def weakPlatform (setup : Int) (go : Int × boot_rsp) : Platform :=
  { target_debug_init := Weak.target_debug_init
    mbedtls_platform_setup := setup
    target_init := Weak.target_init
    target_loop := Weak.target_loop
    boot_go := go
    target_led_off := Weak.target_led_off }

/-! ## Control flow -/

/-- A piece of `main`: from the calls made so far to the calls made after it, and the
value it hands on, or `none` when control never comes back to `main`. -/
def Exec (α : Type) : Type := List Event → List Event × Option α

/-- Sequencing of statements; nothing after a call that does not return is run. -/
def Exec.bind {α β : Type} (x : Exec α) (f : α → Exec β) : Exec β := fun tr =>
  match x tr with
  | (tr1, some a) => f a tr1
  | (tr1, none) => (tr1, none)

/-- A statement without effect. -/
def Exec.pure {α : Type} (a : α) : Exec α := fun tr => (tr, some a)

instance : Monad Exec where
  pure := Exec.pure
  bind := Exec.bind

/-- A call that returns `result`. -/
def call {α : Type} (e : Event) (result : α) : Exec α := fun tr => (tr ++ [e], some result)

/-- A call to a function that does not return (`exit`, `mbed_start_application`). -/
def noreturn (e : Event) : Exec Unit := fun tr => (tr ++ [e], none)

/-- A call to `target_loop`: the platform decides whether it returns. -/
def call_target_loop (env : Platform) : Exec Int := fun tr =>
  match env.target_loop (tr.count Event.target_loop) with
  | Outcome.returns status => (tr ++ [Event.target_loop], some status)
  | Outcome.never => (tr ++ [Event.target_loop], none)

/-- Source: `uint32_t address = rsp.br_image_off + rsp.br_hdr->ih_hdr_size;`. -/
def jump_address (rsp : boot_rsp) : Nat :=
  (rsp.br_image_off + rsp.br_hdr.ih_hdr_size) % 2 ^ 32

/-- The record of an informational log statement: `tr_info` in a build with tracing,
`BOOT_LOG_INF` otherwise. -/
def info_record (cfg : Config) (fmt : String) (args : List LogArg) : Event :=
  if cfg.MBED_CONF_MBED_TRACE_ENABLE then Event.tr_info fmt args else Event.BOOT_LOG_INF fmt args

/-- The record of an error log statement: `tr_error` in a build with tracing,
`BOOT_LOG_ERR` otherwise. -/
def error_record (cfg : Config) (fmt : String) (args : List LogArg) : Event :=
  if cfg.MBED_CONF_MBED_TRACE_ENABLE then Event.tr_error fmt args else Event.BOOT_LOG_ERR fmt args

/-- Source, at each informational log statement of `main`:
`#if MBED_CONF_MBED_TRACE_ENABLE tr_info(...); #else BOOT_LOG_INF(...); #endif`. -/
def log_info (cfg : Config) (fmt : String) (args : List LogArg) : Exec Unit :=
  if cfg.MBED_CONF_MBED_TRACE_ENABLE then
    call (Event.tr_info fmt args) ()
  else
    call (Event.BOOT_LOG_INF fmt args) ()

/-- Source, at each error log statement of `main`:
`#if MBED_CONF_MBED_TRACE_ENABLE tr_error(...); #else BOOT_LOG_ERR(...); #endif`. -/
def log_error (cfg : Config) (fmt : String) (args : List LogArg) : Exec Unit :=
  if cfg.MBED_CONF_MBED_TRACE_ENABLE then
    call (Event.tr_error fmt args) ()
  else
    call (Event.BOOT_LOG_ERR fmt args) ()

/-- Source: `int main()` of `boot/mbed/mcuboot_main.cpp`. -/
def main (cfg : Config) (env : Platform) : Exec Unit := do
  let _ ← call Event.target_debug_init env.target_debug_init
  if cfg.MBED_CONF_MBED_TRACE_ENABLE then
    call Event.mbed_trace_init ()
    if cfg.MCUBOOT_LOG_BOOTLOADER_ONLY then
      call (Event.mbed_trace_include_filters_set "MCUb,BL") ()
  log_info cfg "Starting MCUboot" []
  match cfg.MCUBOOT_CRYPTO_BACKEND with
  | CryptoBackend.MBEDTLS =>
    let rc ← call Event.mbedtls_platform_setup env.mbedtls_platform_setup
    if rc ≠ 0 then
      log_error cfg "Failed to setup Mbed TLS, error: %d" [LogArg.int rc]
      noreturn (Event.exit rc)
  | CryptoBackend.TINYCRYPT =>
    call (Event.uECC_set_rng 0) ()
  let rc ← call Event.target_init env.target_init
  if rc ≠ 0 then
    if cfg.MCUBOOT_APPLICATION_HOOKS then
      log_info cfg "%s" [LogArg.str "Boot process stopped\n"]
      let _ ← call_target_loop env
    else
      log_error cfg "Failed to initialize target, error: %d" [LogArg.int rc]
      noreturn (Event.exit rc)
  let (rc, rsp) ← call Event.boot_go env.boot_go
  if rc ≠ 0 then
    log_error cfg "Failed to locate firmware image, error: %d\n" [LogArg.int rc]
    if cfg.MCUBOOT_APPLICATION_HOOKS then
      let _ ← call_target_loop env
    else
      noreturn (Event.exit rc)
  let address := jump_address rsp
  log_info cfg "Booting firmware image at 0x%x\n" [LogArg.uint32 address]
  let _ ← call Event.target_led_off env.target_led_off
  noreturn (Event.mbed_start_application address)

/-- The calls made by one run of `main`, from power-on. -/
def run (cfg : Config) (env : Platform) : List Event := (main cfg env []).1

/-! ## Reading a run -/

/-- The calls of a run that come after the first call `e`. -/
def calls_after (e : Event) : List Event → List Event
  | [] => []
  | x :: xs => if x = e then xs else calls_after e xs

/-- The calls of a run that come before the first call `e`. -/
def calls_before (e : Event) : List Event → List Event
  | [] => []
  | x :: xs => if x = e then [] else x :: calls_before e xs

/-- Informational log records: `tr_info` and `BOOT_LOG_INF`. -/
def Event.isInfo : Event → Bool
  | Event.tr_info _ _ => true
  | Event.BOOT_LOG_INF _ _ => true
  | _ => false

/-- Error log records: `tr_error` and `BOOT_LOG_ERR`. -/
def Event.isError : Event → Bool
  | Event.tr_error _ _ => true
  | Event.BOOT_LOG_ERR _ _ => true
  | _ => false

/-- The log record that directly precedes a call to `target_loop` made right after the
first call `site`, if the run has that shape. -/
def record_before_target_loop (site : Event) (tr : List Event) : Option Event :=
  match calls_after site tr with
  | r :: Event.target_loop :: _ => some r
  | _ => none

/-- The calls of source lines 73-86: the debug hook, the trace set-up and the first log
record. -/
def startup_calls (cfg : Config) : List Event :=
  Event.target_debug_init ::
    ((if cfg.MBED_CONF_MBED_TRACE_ENABLE then
        Event.mbed_trace_init ::
          (if cfg.MCUBOOT_LOG_BOOTLOADER_ONLY then
            [Event.mbed_trace_include_filters_set "MCUb,BL"] else [])
      else []) ++
    [info_record cfg "Starting MCUboot" []])

/-- The crypto initialisation call of the build (source lines 88-102). -/
def crypto_call (cfg : Config) : Event :=
  match cfg.MCUBOOT_CRYPTO_BACKEND with
  | CryptoBackend.MBEDTLS => Event.mbedtls_platform_setup
  | CryptoBackend.TINYCRYPT => Event.uECC_set_rng 0

/-- Crypto bring-up succeeds: in a Variant A build `mbedtls_platform_setup` returns 0
(Variant B has nothing that can fail). -/
def crypto_ok (cfg : Config) (env : Platform) : Prop :=
  cfg.MCUBOOT_CRYPTO_BACKEND = CryptoBackend.MBEDTLS → env.mbedtls_platform_setup = 0

instance (cfg : Config) (env : Platform) : Decidable (crypto_ok cfg env) := by
  unfold crypto_ok
  infer_instance

/-! ## The run in closed form -/

/-- The calls of the last stage: final log record, LED hook, jump. -/
def transfer_calls (cfg : Config) (env : Platform) : List Event :=
  [info_record cfg "Booting firmware image at 0x%x\n" [LogArg.uint32 (jump_address env.boot_go.2)],
   Event.target_led_off,
   Event.mbed_start_application (jump_address env.boot_go.2)]

/-- The calls from `boot_go` on, when `target_loop` has been called `k` times before. -/
def location_calls (cfg : Config) (env : Platform) (k : Nat) : List Event :=
  Event.boot_go ::
    (if env.boot_go.1 ≠ 0 then
      error_record cfg "Failed to locate firmware image, error: %d\n" [LogArg.int env.boot_go.1] ::
        (if cfg.MCUBOOT_APPLICATION_HOOKS then
          Event.target_loop ::
            (match env.target_loop k with
             | Outcome.returns _ => transfer_calls cfg env
             | Outcome.never => [])
        else [Event.exit env.boot_go.1])
    else transfer_calls cfg env)

/-- The calls from `target_init` on. -/
def bringup_calls (cfg : Config) (env : Platform) : List Event :=
  Event.target_init ::
    (if env.target_init ≠ 0 then
      (if cfg.MCUBOOT_APPLICATION_HOOKS then
        info_record cfg "%s" [LogArg.str "Boot process stopped\n"] :: Event.target_loop ::
          (match env.target_loop 0 with
           | Outcome.returns _ => location_calls cfg env 1
           | Outcome.never => [])
      else
        [error_record cfg "Failed to initialize target, error: %d" [LogArg.int env.target_init],
         Event.exit env.target_init])
    else location_calls cfg env 0)

/-- The calls from the crypto initialisation on. -/
def crypto_calls (cfg : Config) (env : Platform) : List Event :=
  match cfg.MCUBOOT_CRYPTO_BACKEND with
  | CryptoBackend.MBEDTLS =>
    Event.mbedtls_platform_setup ::
      (if env.mbedtls_platform_setup ≠ 0 then
        [error_record cfg "Failed to setup Mbed TLS, error: %d"
           [LogArg.int env.mbedtls_platform_setup],
         Event.exit env.mbedtls_platform_setup]
      else bringup_calls cfg env)
  | CryptoBackend.TINYCRYPT => Event.uECC_set_rng 0 :: bringup_calls cfg env

/-- Calls to `mbed_start_application`, whatever the address. -/
def Event.isStart : Event → Bool
  | Event.mbed_start_application _ => true
  | _ => false

/-- The function pointers `main` hands to `uECC_set_rng`, in call order.  The value 0 is
the null pointer (the literal `0` of the source); a function such as `default_CSPRNG` has
a non-null address. -/
def installed_rng_functions (tr : List Event) : List Nat :=
  tr.filterMap (fun e =>
    match e with
    | Event.uECC_set_rng rng_function => some rng_function
    | _ => none)

/-! ## Sample builds and platforms -/

/-- A response with image offset `0x1000` and header size `0x200`. -/
def sample_rsp : boot_rsp := { br_hdr := { ih_hdr_size := 0x200 }, br_image_off := 0x1000 }

/-- A Variant A build with tracing and the bootloader-only log filter. -/
def mbedtls_build (hooks : Bool) : Config :=
  { MCUBOOT_CRYPTO_BACKEND := CryptoBackend.MBEDTLS, MBED_CONF_MBED_TRACE_ENABLE := true,
    MCUBOOT_LOG_BOOTLOADER_ONLY := true, MCUBOOT_APPLICATION_HOOKS := hooks }

/-- A Variant B build without tracing. -/
def tinycrypt_build (hooks : Bool) : Config :=
  { MCUBOOT_CRYPTO_BACKEND := CryptoBackend.TINYCRYPT, MBED_CONF_MBED_TRACE_ENABLE := false,
    MCUBOOT_LOG_BOOTLOADER_ONLY := false, MCUBOOT_APPLICATION_HOOKS := hooks }

/-- A platform whose `target_init` returns `rc` and whose `target_loop` spins. -/
def board_init_fails (rc : Int) : Platform :=
  { target_debug_init := 0, mbedtls_platform_setup := 0, target_init := rc,
    target_loop := fun _ => Outcome.never, boot_go := (0, sample_rsp), target_led_off := 0 }

/-- A platform whose `boot_go` returns `rc` and whose `target_loop` spins. -/
def board_no_image (rc : Int) : Platform :=
  { target_debug_init := 0, mbedtls_platform_setup := 0, target_init := 0,
    target_loop := fun _ => Outcome.never, boot_go := (rc, sample_rsp), target_led_off := 0 }

/-! ## Unfolding the sequence -/

set_option maxHeartbeats 8000000

theorem Exec.bind_eq {α β : Type} (x : Exec α) (f : α → Exec β) :
    (x >>= f) = Exec.bind x f := rfl

theorem Exec.pure_eq {α : Type} (a : α) : (Pure.pure a : Exec α) = Exec.pure a := rfl

/-- The run of `main` is the start-up calls followed by the calls of the later stages. -/
theorem run_eq (cfg : Config) (env : Platform) :
    run cfg env = startup_calls cfg ++ crypto_calls cfg env := by
  rcases cfg with ⟨b, t, f, p⟩
  rcases env with ⟨d, s, ti, tl, ⟨brc, rsp⟩, l⟩
  cases b <;> cases t <;> cases f <;> cases p <;>
    by_cases hs : s = 0 <;> by_cases hti : ti = 0 <;> by_cases hb : brc = 0 <;>
    simp [run, main, Exec.bind_eq, Exec.pure_eq, Exec.bind, Exec.pure, call, noreturn,
      call_target_loop, log_info, log_error, info_record, error_record, startup_calls,
      crypto_calls, bringup_calls, location_calls, transfer_calls, hs, hti, hb] <;>
    cases h0 : tl 0 <;>
    simp [Exec.bind, Exec.pure, call, noreturn, call_target_loop, h0] <;>
    cases h1 : tl 1 <;>
    simp [Exec.bind, Exec.pure, call, noreturn, call_target_loop, h1]

/-! ## Terminate policy and fatal crypto failure -/

/-- C4: under the terminate policy (`MCUBOOT_APPLICATION_HOOKS` off), a non-zero status
`rc` of `target_init`, or of `boot_go` after a successful `target_init`, makes `main`
call `exit rc` as its last call, with no other exit status; `target_loop`,
`target_led_off` and `mbed_start_application` are never called, and `boot_go` is not
called when it is `target_init` that failed. -/
theorem terminate_policy_exits_with_status (cfg : Config) (env : Platform) (rc : Int)
    (hpol : cfg.MCUBOOT_APPLICATION_HOOKS = false) (hcrypto : crypto_ok cfg env)
    (hne : rc ≠ 0) :
    (env.target_init = rc →
      (run cfg env).getLast? = some (Event.exit rc) ∧
      (∀ s, Event.exit s ∈ run cfg env → s = rc) ∧
      Event.target_init ∈ run cfg env ∧
      Event.boot_go ∉ run cfg env ∧
      Event.target_loop ∉ run cfg env ∧
      Event.target_led_off ∉ run cfg env ∧
      ∀ a, Event.mbed_start_application a ∉ run cfg env) ∧
    (env.target_init = 0 → env.boot_go.1 = rc →
      (run cfg env).getLast? = some (Event.exit rc) ∧
      (∀ s, Event.exit s ∈ run cfg env → s = rc) ∧
      Event.boot_go ∈ run cfg env ∧
      Event.target_loop ∉ run cfg env ∧
      Event.target_led_off ∉ run cfg env ∧
      ∀ a, Event.mbed_start_application a ∉ run cfg env) := by
  rw [run_eq]
  rcases cfg with ⟨b, t, f, p⟩
  rcases env with ⟨d, s, ti, tl, ⟨brc, rsp⟩, l⟩
  simp only at hpol
  subst hpol
  constructor
  · intro hti
    simp only at hti
    subst hti
    cases b <;> cases t <;> cases f <;>
      simp [crypto_ok] at hcrypto <;>
      simp [startup_calls, crypto_calls, bringup_calls, info_record, error_record, hne,
        hcrypto]
  · intro hti hbg
    simp only at hti hbg
    subst hti
    subst hbg
    cases b <;> cases t <;> cases f <;>
      simp [crypto_ok] at hcrypto <;>
      simp [startup_calls, crypto_calls, bringup_calls, location_calls, info_record,
        error_record, hne, hcrypto]

/-- C5: in a Variant A build, a non-zero status `rc` of `mbedtls_platform_setup` makes
`main` call `exit rc` as its last call, whatever the failure policy, and none of
`target_init`, `target_loop`, `boot_go`, `target_led_off`, `mbed_start_application` is
called. -/
theorem mbedtls_failure_is_fatal (cfg : Config) (env : Platform) (rc : Int)
    (hA : cfg.MCUBOOT_CRYPTO_BACKEND = CryptoBackend.MBEDTLS)
    (hrc : env.mbedtls_platform_setup = rc) (hne : rc ≠ 0) :
    (run cfg env).getLast? = some (Event.exit rc) ∧
    (∀ s, Event.exit s ∈ run cfg env → s = rc) ∧
    Event.target_init ∉ run cfg env ∧
    Event.target_loop ∉ run cfg env ∧
    Event.boot_go ∉ run cfg env ∧
    Event.target_led_off ∉ run cfg env ∧
    ∀ a, Event.mbed_start_application a ∉ run cfg env := by
  rw [run_eq]
  rcases cfg with ⟨b, t, f, p⟩
  simp only at hA
  subst hA
  subst hrc
  cases t <;> cases f <;>
    simp [startup_calls, crypto_calls, info_record, error_record, hne]

/-! ## The jump address -/

/-- C2: when `boot_go` is called and returns 0 with a response of image offset `o` and
header size `h`, `main` calls `mbed_start_application` with `(o + h) mod 2^32` and with
no other address; that is `o + h` itself when `o + h < 2^32`, and `0x1200` for
`o = 0x1000`, `h = 0x200`. -/
theorem jump_address_is_offset_plus_header (cfg : Config) (env : Platform) (o h : Nat)
    (hcalled : Event.boot_go ∈ run cfg env)
    (hgo : env.boot_go = (0, { br_hdr := { ih_hdr_size := h }, br_image_off := o })) :
    Event.mbed_start_application ((o + h) % 2 ^ 32) ∈ run cfg env ∧
    (∀ a, Event.mbed_start_application a ∈ run cfg env → a = (o + h) % 2 ^ 32) ∧
    (o + h < 2 ^ 32 → Event.mbed_start_application (o + h) ∈ run cfg env) ∧
    (o = 0x1000 → h = 0x200 → Event.mbed_start_application 0x1200 ∈ run cfg env) := by
  have key : Event.mbed_start_application ((o + h) % 2 ^ 32) ∈ run cfg env ∧
      (∀ a, Event.mbed_start_application a ∈ run cfg env → a = (o + h) % 2 ^ 32) := by
    rw [run_eq] at hcalled ⊢
    rcases cfg with ⟨b, t, f, p⟩
    rcases env with ⟨d, s, ti, tl, ⟨brc, rsp⟩, l⟩
    simp only [Prod.mk.injEq] at hgo
    obtain ⟨h1, h2⟩ := hgo
    subst h1
    subst h2
    revert hcalled
    by_cases hs : s = 0 <;> by_cases hti : ti = 0 <;> cases h0 : tl 0 <;>
      cases b <;> cases t <;> cases f <;> cases p <;>
      simp [startup_calls, crypto_calls, bringup_calls, location_calls, transfer_calls,
        info_record, error_record, jump_address, hs, hti, h0]
  refine ⟨key.1, key.2, ?_, ?_⟩
  · intro hlt
    have := key.1
    rwa [Nat.mod_eq_of_lt hlt] at this
  · intro ho hh
    subst ho
    subst hh
    exact key.1

/-! ## Hook-loop policy with a `target_loop` that returns -/

/-- C1: with the hook-loop policy and the weak hooks, a `boot_go` that returns 1 is
followed by the error record, a `target_loop` that returns, and then by
`mbed_start_application` on the address computed from the response slot. -/
theorem start_after_failed_boot_go :
    run { MCUBOOT_CRYPTO_BACKEND := CryptoBackend.MBEDTLS, MBED_CONF_MBED_TRACE_ENABLE := false,
          MCUBOOT_LOG_BOOTLOADER_ONLY := false, MCUBOOT_APPLICATION_HOOKS := true }
        (weakPlatform 0 (1, { br_hdr := { ih_hdr_size := 0x200 }, br_image_off := 0x1000 })) =
      [Event.target_debug_init,
       Event.BOOT_LOG_INF "Starting MCUboot" [],
       Event.mbedtls_platform_setup,
       Event.target_init,
       Event.boot_go,
       Event.BOOT_LOG_ERR "Failed to locate firmware image, error: %d\n" [LogArg.int 1],
       Event.target_loop,
       Event.BOOT_LOG_INF "Booting firmware image at 0x%x\n" [LogArg.uint32 0x1200],
       Event.target_led_off,
       Event.mbed_start_application 0x1200] := by
  rfl

/-- C3: with the hook-loop policy, a `target_init` that returns 1 and the weak
`target_loop`, `main` logs "Boot process stopped", calls `target_loop`, and then goes on
to call `boot_go` and to start the application. -/
theorem boot_go_after_target_loop :
    run { MCUBOOT_CRYPTO_BACKEND := CryptoBackend.TINYCRYPT, MBED_CONF_MBED_TRACE_ENABLE := true,
          MCUBOOT_LOG_BOOTLOADER_ONLY := false, MCUBOOT_APPLICATION_HOOKS := true }
        { target_debug_init := Weak.target_debug_init, mbedtls_platform_setup := 0,
          target_init := 1, target_loop := Weak.target_loop,
          boot_go := (0, { br_hdr := { ih_hdr_size := 0x200 }, br_image_off := 0x1000 }),
          target_led_off := Weak.target_led_off } =
      [Event.target_debug_init,
       Event.mbed_trace_init,
       Event.tr_info "Starting MCUboot" [],
       Event.uECC_set_rng 0,
       Event.target_init,
       Event.tr_info "%s" [LogArg.str "Boot process stopped\n"],
       Event.target_loop,
       Event.boot_go,
       Event.tr_info "Booting firmware image at 0x%x\n" [LogArg.uint32 0x1200],
       Event.target_led_off,
       Event.mbed_start_application 0x1200] := by
  rfl

/-! ## One policy flag for both failure sites -/

/-- C7, as stated, fails on what is installed: in a Variant B build with the weak hooks
the one call to `uECC_set_rng` has the null pointer 0 as its argument, so no non-null
function pointer, that of `default_CSPRNG` included, is installed by `main`. -/
theorem null_rng_function_installed :
    run (tinycrypt_build false) (weakPlatform 0 (0, sample_rsp)) =
      [Event.target_debug_init,
       Event.BOOT_LOG_INF "Starting MCUboot" [],
       Event.uECC_set_rng 0,
       Event.target_init,
       Event.boot_go,
       Event.BOOT_LOG_INF "Booting firmware image at 0x%x\n" [LogArg.uint32 0x1200],
       Event.target_led_off,
       Event.mbed_start_application 0x1200] ∧
    installed_rng_functions (run (tinycrypt_build false) (weakPlatform 0 (0, sample_rsp))) = [0] ∧
    ¬ ∃ p, p ≠ 0 ∧
      Event.uECC_set_rng p ∈ run (tinycrypt_build false) (weakPlatform 0 (0, sample_rsp)) := by
  have hrun : run (tinycrypt_build false) (weakPlatform 0 (0, sample_rsp)) =
      [Event.target_debug_init,
       Event.BOOT_LOG_INF "Starting MCUboot" [],
       Event.uECC_set_rng 0,
       Event.target_init,
       Event.boot_go,
       Event.BOOT_LOG_INF "Booting firmware image at 0x%x\n" [LogArg.uint32 0x1200],
       Event.target_led_off,
       Event.mbed_start_application 0x1200] := rfl
  refine ⟨hrun, ?_, ?_⟩
  · rw [hrun]
    rfl
  · rintro ⟨p, hp, hmem⟩
    rw [hrun] at hmem
    simp at hmem
    exact hp hmem

/-- C7, amended: in a Variant B build the calls `main` makes before `target_init` are the
start-up calls followed by the single call `uECC_set_rng(0)`, whatever the platform
does: no `exit` among them, nothing of the platform consulted, and `target_init` is
called.  `mbedtls_platform_setup` is not called.  The only function pointer `main`
installs in the whole run is the null pointer 0, not `default_CSPRNG`.  The stub
`default_CSPRNG` returns 0 for every buffer and size and leaves the buffer as it was. -/
theorem tinycrypt_setup_cannot_fail (cfg : Config) (env : Platform)
    (hB : cfg.MCUBOOT_CRYPTO_BACKEND = CryptoBackend.TINYCRYPT) :
    Event.target_init ∈ run cfg env ∧
    calls_before Event.target_init (run cfg env) = startup_calls cfg ++ [Event.uECC_set_rng 0] ∧
    (∀ s, Event.exit s ∉ calls_before Event.target_init (run cfg env)) ∧
    Event.mbedtls_platform_setup ∉ run cfg env ∧
    installed_rng_functions (run cfg env) = [0] ∧
    (∀ p, Event.uECC_set_rng p ∈ run cfg env → p = 0) ∧
    (∀ (dest : List Nat) (size : Nat), default_CSPRNG dest size = (0, dest)) := by
  rw [run_eq]
  rcases cfg with ⟨b, t, f, p⟩
  rcases env with ⟨d, s, ti, tl, ⟨brc, rsp⟩, l⟩
  simp only at hB
  subst hB
  refine ⟨?_, ?_, ?_, ?_, ?_, ?_, fun _ _ => rfl⟩
  · simp [crypto_calls, bringup_calls]
  · cases t <;> cases f <;>
      simp [startup_calls, crypto_calls, bringup_calls, info_record, calls_before]
  · cases t <;> cases f <;>
      simp [startup_calls, crypto_calls, bringup_calls, info_record, calls_before]
  · by_cases hti : ti = 0 <;> by_cases hb : brc = 0 <;> cases h0 : tl 0 <;> cases h1 : tl 1 <;>
      cases t <;> cases f <;> cases p <;>
      simp [startup_calls, crypto_calls, bringup_calls, location_calls, transfer_calls,
        info_record, error_record, hti, hb, h0, h1]
  · by_cases hti : ti = 0 <;> by_cases hb : brc = 0 <;> cases h0 : tl 0 <;> cases h1 : tl 1 <;>
      cases t <;> cases f <;> cases p <;>
      simp [startup_calls, crypto_calls, bringup_calls, location_calls, transfer_calls,
        info_record, error_record, installed_rng_functions, hti, hb, h0, h1]
  · intro q
    by_cases hti : ti = 0 <;> by_cases hb : brc = 0 <;> cases h0 : tl 0 <;> cases h1 : tl 1 <;>
      cases t <;> cases f <;> cases p <;>
      simp [startup_calls, crypto_calls, bringup_calls, location_calls, transfer_calls,
        info_record, error_record, hti, hb, h0, h1]

/-! ## Hooks whose status is ignored -/

/-- C8: two platforms that agree on everything but the statuses returned by
`target_debug_init` and `target_led_off` give the same run: the same calls with the same
arguments in the same order, hence the same exit status or jump address. -/
theorem ignored_hook_status_never_gates (cfg : Config) (env env' : Platform)
    (hsetup : env.mbedtls_platform_setup = env'.mbedtls_platform_setup)
    (hinit : env.target_init = env'.target_init)
    (hloop : env.target_loop = env'.target_loop)
    (hgo : env.boot_go = env'.boot_go) :
    run cfg env = run cfg env' := by
  rw [run_eq, run_eq]
  simp only [crypto_calls, bringup_calls, location_calls, transfer_calls, hsetup, hinit, hloop,
    hgo]

/-! ## The success path -/

/-- C9: when crypto bring-up succeeds and `target_init` and `boot_go` return 0, the run
is the start-up calls (the debug hook first), the crypto initialisation, `target_init`,
`boot_go`, the record "Booting firmware image at ...", `target_led_off` and
`mbed_start_application` on the jump address, in this order; each of these is called
once, and neither `target_loop` nor `exit` is called. -/
theorem success_path_sequence (cfg : Config) (env : Platform)
    (hcrypto : crypto_ok cfg env) (hinit : env.target_init = 0) (hgo : env.boot_go.1 = 0) :
    run cfg env =
      startup_calls cfg ++
        [crypto_call cfg,
         Event.target_init,
         Event.boot_go,
         info_record cfg "Booting firmware image at 0x%x\n"
           [LogArg.uint32 (jump_address env.boot_go.2)],
         Event.target_led_off,
         Event.mbed_start_application (jump_address env.boot_go.2)] ∧
    (startup_calls cfg).head? = some Event.target_debug_init ∧
    (∀ e ∈ [Event.target_debug_init, crypto_call cfg, Event.target_init, Event.boot_go,
        info_record cfg "Booting firmware image at 0x%x\n"
          [LogArg.uint32 (jump_address env.boot_go.2)],
        Event.target_led_off, Event.mbed_start_application (jump_address env.boot_go.2)],
      (run cfg env).count e = 1) ∧
    Event.target_loop ∉ run cfg env ∧
    (∀ s, Event.exit s ∉ run cfg env) := by
  rw [run_eq]
  rcases cfg with ⟨b, t, f, p⟩
  rcases env with ⟨d, s, ti, tl, ⟨brc, rsp⟩, l⟩
  simp only at hinit hgo
  subst hinit
  subst hgo
  cases b <;> cases t <;> cases f <;>
    simp [crypto_ok] at hcrypto <;>
    simp [startup_calls, crypto_calls, crypto_call, bringup_calls, location_calls,
      transfer_calls, info_record, hcrypto]

/-! ## The record logged before `target_loop` -/

/-- C10, as stated, fails at the image-location site: under the hook-loop policy, a
`boot_go` that returns 1 is followed by an error record (`tr_error`), not an
informational one, and then by `target_loop`. -/
theorem error_record_before_target_loop_at_boot_go :
    run (mbedtls_build true) (board_no_image 1) =
      [Event.target_debug_init,
       Event.mbed_trace_init,
       Event.mbed_trace_include_filters_set "MCUb,BL",
       Event.tr_info "Starting MCUboot" [],
       Event.mbedtls_platform_setup,
       Event.target_init,
       Event.boot_go,
       Event.tr_error "Failed to locate firmware image, error: %d\n" [LogArg.int 1],
       Event.target_loop] ∧
    record_before_target_loop Event.boot_go (run (mbedtls_build true) (board_no_image 1)) =
      some (Event.tr_error "Failed to locate firmware image, error: %d\n" [LogArg.int 1]) ∧
    (Event.tr_error "Failed to locate firmware image, error: %d\n" [LogArg.int 1]).isInfo = false ∧
    (Event.tr_error "Failed to locate firmware image, error: %d\n" [LogArg.int 1]).isError = true := by
  refine ⟨?_, ?_, rfl, rfl⟩
  · rfl
  · rfl

/-- C10, amended: under the hook-loop policy and for either setting of the tracing flag,
the record logged directly before `target_loop` is the informational record
"Boot process stopped" when `target_init` fails, and the error record
"Failed to locate firmware image, error: rc" when `boot_go` is called and fails. -/
theorem record_before_target_loop_by_site (cfg : Config) (env : Platform) (rc : Int)
    (hpol : cfg.MCUBOOT_APPLICATION_HOOKS = true) (hcrypto : crypto_ok cfg env)
    (hne : rc ≠ 0) :
    (env.target_init = rc →
      record_before_target_loop Event.target_init (run cfg env) =
        some (info_record cfg "%s" [LogArg.str "Boot process stopped\n"]) ∧
      (info_record cfg "%s" [LogArg.str "Boot process stopped\n"]).isInfo = true ∧
      (info_record cfg "%s" [LogArg.str "Boot process stopped\n"]).isError = false) ∧
    (Event.boot_go ∈ run cfg env → env.boot_go.1 = rc →
      record_before_target_loop Event.boot_go (run cfg env) =
        some (error_record cfg "Failed to locate firmware image, error: %d\n" [LogArg.int rc]) ∧
      (error_record cfg "Failed to locate firmware image, error: %d\n"
        [LogArg.int rc]).isError = true ∧
      (error_record cfg "Failed to locate firmware image, error: %d\n"
        [LogArg.int rc]).isInfo = false) := by
  rw [run_eq]
  rcases cfg with ⟨b, t, f, p⟩
  rcases env with ⟨d, s, ti, tl, ⟨brc, rsp⟩, l⟩
  simp only at hpol
  subst hpol
  constructor
  · intro hti
    simp only at hti
    subst hti
    cases h0 : tl 0 <;> cases b <;> cases t <;> cases f <;>
      simp [crypto_ok] at hcrypto <;>
      simp [startup_calls, crypto_calls, bringup_calls, info_record, error_record, hne,
        hcrypto, calls_after, record_before_target_loop, Event.isInfo, Event.isError, h0]
  · intro hcalled hbg
    simp only at hbg
    subst hbg
    revert hcalled
    by_cases hti : ti = 0 <;> cases h0 : tl 0 <;> cases h1 : tl 1 <;>
      cases b <;> cases t <;> cases f <;>
      simp [crypto_ok] at hcrypto <;>
      simp [startup_calls, crypto_calls, bringup_calls, location_calls, transfer_calls,
        info_record, error_record, hne, hcrypto, calls_after, record_before_target_loop,
        Event.isInfo, Event.isError, hti, h0, h1]

/-! ## A `target_loop` that keeps control -/

/-- When `target_loop` never returns, `mbed_start_application` is reached only through a
`boot_go` that returned 0, and under the hook-loop policy a failing `target_init` ends
the run in `target_loop` without any call to `boot_go`. -/
theorem spinning_target_loop_stops_boot (cfg : Config) (env : Platform)
    (hspin : ∀ k, env.target_loop k = Outcome.never) :
    (∀ a, Event.mbed_start_application a ∈ run cfg env →
      Event.boot_go ∈ run cfg env ∧ env.boot_go.1 = 0) ∧
    (cfg.MCUBOOT_APPLICATION_HOOKS = true → crypto_ok cfg env → env.target_init ≠ 0 →
      (run cfg env).getLast? = some Event.target_loop ∧ Event.boot_go ∉ run cfg env) := by
  rw [run_eq]
  rcases cfg with ⟨b, t, f, p⟩
  rcases env with ⟨d, s, ti, tl, ⟨brc, rsp⟩, l⟩
  simp only at hspin
  constructor
  · intro a
    by_cases hs : s = 0 <;> by_cases hti : ti = 0 <;> by_cases hb : brc = 0 <;>
      cases b <;> cases t <;> cases f <;> cases p <;>
      simp [startup_calls, crypto_calls, bringup_calls, location_calls, transfer_calls,
        info_record, error_record, hs, hti, hb, hspin]
  · intro hp hc hti
    simp only at hp hti
    subst hp
    cases b <;> cases t <;> cases f <;>
      simp [crypto_ok] at hc <;>
      simp [startup_calls, crypto_calls, bringup_calls, info_record, error_record, hc, hti,
        hspin]

/-- From `boot_go` on, `mbed_start_application` is called at most once. -/
theorem location_calls_start_le_one (cfg : Config) (env : Platform) (k : Nat) :
    (location_calls cfg env k).countP Event.isStart ≤ 1 := by
  rcases cfg with ⟨b, t, f, p⟩
  by_cases hb : env.boot_go.1 = 0 <;> cases h0 : env.target_loop k <;>
    cases t <;> cases p <;>
    simp [location_calls, transfer_calls, info_record, error_record, Event.isStart, hb, h0]

/-- In every run, `mbed_start_application` is called at most once. -/
theorem start_called_at_most_once (cfg : Config) (env : Platform) :
    (run cfg env).countP Event.isStart ≤ 1 := by
  rw [run_eq]
  have h0 := location_calls_start_le_one cfg env 0
  have h1 := location_calls_start_le_one cfg env 1
  rcases cfg with ⟨b, t, f, p⟩
  by_cases hs : env.mbedtls_platform_setup = 0 <;> by_cases hti : env.target_init = 0 <;>
    cases hl : env.target_loop 0 <;>
    cases b <;> cases t <;> cases f <;> cases p <;>
    simp [startup_calls, crypto_calls, bringup_calls, info_record, error_record,
      Event.isStart, hs, hti, hl] <;>
    assumption

/-! ## Instances -/

/-- The jump address on a board whose image sits at `0x1000` with a `0x200` header. -/
theorem jump_address_is_offset_plus_header_witness :
    Event.boot_go ∈ run (mbedtls_build false) (board_no_image 0) ∧
    (board_no_image 0).boot_go =
      (0, { br_hdr := { ih_hdr_size := 0x200 }, br_image_off := 0x1000 }) ∧
    Event.mbed_start_application 0x1200 ∈ run (mbedtls_build false) (board_no_image 0) :=
  ⟨by decide, rfl,
    (jump_address_is_offset_plus_header (mbedtls_build false) (board_no_image 0) 0x1000 0x200
      (by decide) rfl).2.2.2 rfl rfl⟩

/-- The terminate policy on a board whose `target_init` returns 3 and on one whose
`boot_go` returns 7. -/
theorem terminate_policy_exits_with_status_witness :
    (run (tinycrypt_build false) (board_init_fails 3)).getLast? = some (Event.exit 3) ∧
    Event.boot_go ∉ run (tinycrypt_build false) (board_init_fails 3) ∧
    (run (mbedtls_build false) (board_no_image 7)).getLast? = some (Event.exit 7) :=
  ⟨(((terminate_policy_exits_with_status (tinycrypt_build false) (board_init_fails 3) 3 rfl
        (by decide) (by decide)).1 rfl).1),
   (((terminate_policy_exits_with_status (tinycrypt_build false) (board_init_fails 3) 3 rfl
        (by decide) (by decide)).1 rfl).2.2.2.1),
   (((terminate_policy_exits_with_status (mbedtls_build false) (board_no_image 7) 7 rfl
        (by decide) (by decide)).2 rfl rfl).1)⟩

/-- A hook-loop build whose `mbedtls_platform_setup` returns -5. -/
theorem mbedtls_failure_is_fatal_witness :
    (run (mbedtls_build true) (weakPlatform (-5) (0, sample_rsp))).getLast? =
      some (Event.exit (-5)) ∧
    Event.target_init ∉ run (mbedtls_build true) (weakPlatform (-5) (0, sample_rsp)) :=
  ⟨(mbedtls_failure_is_fatal (mbedtls_build true) (weakPlatform (-5) (0, sample_rsp)) (-5) rfl
      rfl (by decide)).1,
   (mbedtls_failure_is_fatal (mbedtls_build true) (weakPlatform (-5) (0, sample_rsp)) (-5) rfl
      rfl (by decide)).2.2.1⟩

/-- The calls before `target_init` in a Variant B build without tracing. -/
theorem tinycrypt_setup_cannot_fail_witness :
    Event.target_init ∈ run (tinycrypt_build true) (board_init_fails 1) ∧
    calls_before Event.target_init (run (tinycrypt_build true) (board_init_fails 1)) =
      [Event.target_debug_init, Event.BOOT_LOG_INF "Starting MCUboot" [], Event.uECC_set_rng 0] ∧
    installed_rng_functions (run (tinycrypt_build true) (board_init_fails 1)) = [0] :=
  ⟨(tinycrypt_setup_cannot_fail (tinycrypt_build true) (board_init_fails 1) rfl).1,
   (tinycrypt_setup_cannot_fail (tinycrypt_build true) (board_init_fails 1) rfl).2.1,
   (tinycrypt_setup_cannot_fail (tinycrypt_build true) (board_init_fails 1) rfl).2.2.2.2.1⟩

/-- Two boards that differ in the statuses of `target_debug_init` and `target_led_off`. -/
theorem ignored_hook_status_never_gates_witness :
    run (mbedtls_build false) (board_no_image 0) =
      run (mbedtls_build false)
        { target_debug_init := -1, mbedtls_platform_setup := 0, target_init := 0,
          target_loop := fun _ => Outcome.never, boot_go := (0, sample_rsp),
          target_led_off := 9 } :=
  ignored_hook_status_never_gates (mbedtls_build false) (board_no_image 0)
    { target_debug_init := -1, mbedtls_platform_setup := 0, target_init := 0,
      target_loop := fun _ => Outcome.never, boot_go := (0, sample_rsp),
      target_led_off := 9 } rfl rfl rfl rfl

/-- The success path of a Variant A build with tracing and the weak hooks. -/
theorem success_path_sequence_witness :
    run (mbedtls_build false) (weakPlatform 0 (0, sample_rsp)) =
      [Event.target_debug_init,
       Event.mbed_trace_init,
       Event.mbed_trace_include_filters_set "MCUb,BL",
       Event.tr_info "Starting MCUboot" [],
       Event.mbedtls_platform_setup,
       Event.target_init,
       Event.boot_go,
       Event.tr_info "Booting firmware image at 0x%x\n" [LogArg.uint32 0x1200],
       Event.target_led_off,
       Event.mbed_start_application 0x1200] :=
  (success_path_sequence (mbedtls_build false) (weakPlatform 0 (0, sample_rsp)) (by decide)
    rfl rfl).1

/-- The records logged before `target_loop` in a hook-loop build without tracing. -/
theorem record_before_target_loop_by_site_witness :
    record_before_target_loop Event.target_init
        (run (tinycrypt_build true) (board_init_fails 4)) =
      some (Event.BOOT_LOG_INF "%s" [LogArg.str "Boot process stopped\n"]) ∧
    Event.boot_go ∈ run (tinycrypt_build true) (board_no_image 4) ∧
    record_before_target_loop Event.boot_go
        (run (tinycrypt_build true) (board_no_image 4)) =
      some (Event.BOOT_LOG_ERR "Failed to locate firmware image, error: %d\n" [LogArg.int 4]) :=
  ⟨((record_before_target_loop_by_site (tinycrypt_build true) (board_init_fails 4) 4 rfl
      (by decide) (by decide)).1 rfl).1,
   by decide,
   ((record_before_target_loop_by_site (tinycrypt_build true) (board_no_image 4) 4 rfl
      (by decide) (by decide)).2 (by decide) rfl).1⟩

end MCUboot
